import Mathlib

/-!
Shallow embedding of src/common/rig.c, the hamlib capability-dispatch and
device-lifecycle core.

Modelling conventions:
- C int results are Int, unsigned masks and enum-valued fields are Nat,
  the calibration factor (a C double) is an exact rational (at the inputs
  this development evaluates, the double computation rounds to the same
  integer the exact rational gives), a possibly-null pointer is Option.
- An execution that runs into undefined behaviour (an out-of-bounds table
  read, a dereference of a null pointer) is modelled as the result none of
  the embedded function.
- External collaborators (the transport's serial_open, the heap allocator)
  are oracle parameters of the embedded functions.
- Backend hook bodies (rig_init / rig_open / rig_close / rig_cleanup in a
  capability record) touch only model-private data, which this core treats
  as opaque; the C code also discards their return values, so calling a
  hook has no modelled effect and only the hooks whose results the core
  consumes (rig_probe, the six accessors) carry functions in the model.
-/

/-- Modelled from the spec: rig.h (not under the sources) defines the numeric
error codes; per section 7 of the spec they follow the order of the error
taxonomy, which is also the index order of rigerror_table below. -/
def RIG_OK : Int := 0

/-- Modelled from the spec: InvalidParameter, index 1 of the taxonomy. -/
def RIG_EINVAL : Int := 1

/-- Modelled from the spec: InvalidConfiguration, index 2 of the taxonomy. -/
def RIG_ECONF : Int := 2

/-- Modelled from the spec: MemoryShortage, index 3 of the taxonomy. -/
def RIG_ENOMEM : Int := 3

/-- Modelled from the spec: NotImplemented, index 4 of the taxonomy. -/
def RIG_ENIMPL : Int := 4

/-- Modelled from the spec: rig.h transport kinds; only their distinctness
matters to the code under verification. -/
def RIG_PORT_SERIAL : Nat := 1

/-- Modelled from the spec: the (unimplemented) network transport kind. -/
def RIG_PORT_NETWORK : Nat := 2

/-- The static error-description table of rig.c, verbatim (including the
original misspelling in entry 0). -/
def rigerror_table : List String := [
  "Command completed sucessfully",
  "Invalid parameter",
  "Invalid configuration",
  "Memory shortage",
  "Feature not implemented",
  "Communication timed out",
  "IO error",
  "Internal Hamlib error",
  "Protocol error",
  "Command rejected by the rig",
  "Command performed, but arg truncated, result not guaranteed"]

/-- rigerror: the C code returns rigerror_table[errnum] with no bounds check
(the TODO above it says so); an index outside the table is an out-of-bounds
read, i.e. undefined behaviour, modelled as none. -/
def rigerror (errnum : Int) : Option String :=
  if errnum < 0 then none else rigerror_table[errnum.toNat]?

/-- The mutable per-handle state block (struct rig_state), restricted to the
fields rig.c reads or writes. -/
structure rig_state where
  port_type : Nat
  rig_path : String
  serial_rate : Nat
  serial_data_bits : Nat
  serial_stop_bits : Nat
  serial_parity : Nat
  serial_handshake : Nat
  timeout : Nat
  retry : Nat
  ptt_type : Nat
  vfo_comp : Rat
  fd : Int

/-- A capability descriptor (struct rig_caps).  Hook pointers whose return
value the core discards are modelled as presence flags; hooks whose result
the core consumes are Option-wrapped functions of the handle state. -/
structure rig_caps where
  rig_model : Nat
  model_name : String
  serial_rate_min : Nat
  serial_rate_max : Nat
  serial_data_bits : Nat
  serial_stop_bits : Nat
  serial_parity : Nat
  serial_handshake : Nat
  timeout : Nat
  retry : Nat
  ptt_type : Nat
  has_func : Nat
  rig_init_hook : Bool
  rig_open_hook : Bool
  rig_close_hook : Bool
  rig_cleanup_hook : Bool
  rig_probe : Option (rig_state → Int)
  set_freq : Option (rig_state → Int → Int)
  get_freq : Option (rig_state → Int × Int)
  set_mode : Option (rig_state → Nat → Int)
  get_mode : Option (rig_state → Int × Nat)
  set_vfo : Option (rig_state → Nat → Int)
  get_vfo : Option (rig_state → Int × Nat)

/-- A device handle (struct RIG): a possibly-null pointer to a shared
read-only descriptor, plus the exclusively owned state block. -/
structure RIG where
  caps : Option rig_caps
  state : rig_state

def DEFAULT_SERIAL_PORT : String := "/dev/ttyS0"

/-- The linear registry scan (for i=0; rig_base[i]; i++) shared verbatim by
rig_init and rig_get_caps; first match wins, NULL terminator means
not found. -/
def rig_base_lookup : List rig_caps → Nat → Option rig_caps
  | [], _ => none
  | c :: rest, m => if c.rig_model = m then some c else rig_base_lookup rest m

/-- rig_get_caps: the registry scan followed by printf diagnostics; the
printing has no modelled effect on the returned descriptor. -/
def rig_get_caps (rig_base : List rig_caps) (rig_model : Nat) : Option rig_caps :=
  rig_base_lookup rig_base rig_model

/-- rig_init: registry lookup, then calloc (modelled by the alloc_ok oracle;
calloc zero-fills, hence fd = 0 and vfo_comp = 0 before the explicit field
stores), then seeding of rig->state from the descriptor defaults.  The C
code returns NULL both when the model is absent from the registry and when
calloc fails (its own FIXME notes the caller cannot tell the two apart).
The backend rig_init hook call has no modelled effect (see the header). -/
def rig_init (rig_base : List rig_caps) (alloc_ok : Bool) (rig_model : Nat) :
    Option RIG :=
  match rig_base_lookup rig_base rig_model with
  | none => none
  | some c =>
    if alloc_ok then
      some { caps := some c
             state := {
               port_type := RIG_PORT_SERIAL
               rig_path := DEFAULT_SERIAL_PORT
               serial_rate := c.serial_rate_max
               serial_data_bits := c.serial_data_bits
               serial_stop_bits := c.serial_stop_bits
               serial_parity := c.serial_parity
               serial_handshake := c.serial_handshake
               timeout := c.timeout
               retry := c.retry
               ptt_type := c.ptt_type
               vfo_comp := 0
               fd := 0 } }
    else none

/-- rig_open: serial_open is the transport collaborator (not among the
sources), modelled as an oracle returning a status and the descriptor it
stores into state.fd on success (status 0).  On transport failure the status
is returned unchanged and the state is untouched.  After a successful
transport open the C code reads rig->caps->rig_open without any null check
on rig->caps: with a null descriptor that is undefined behaviour (none).
The hook result itself is discarded.  No lifecycle state is consulted or
recorded anywhere in the function. -/
def rig_open (serial_open : rig_state → Int × Int) (rig : Option RIG) :
    Option (Int × Option RIG) :=
  match rig with
  | none => some (-RIG_EINVAL, none)
  | some r =>
    if r.state.port_type = RIG_PORT_SERIAL then
      let st := serial_open r.state
      if st.1 ≠ 0 then some (st.1, some r)
      else
        match r.caps with
        | none => none
        | some _ =>
          some (RIG_OK, some { r with state := { r.state with fd := st.2 } })
    else
      some (-RIG_ENIMPL, some r)

/-- The C cast (freq_t)(double), truncation toward zero, on the exact
rational model of the double product. -/
def freq_t_cast (q : Rat) : Int := Int.tdiv q.num (q.den : Int)

/-- rig_set_freq: null checks, then the vfo_comp calibration multiply
(applied only when the factor is not 0.0, i.e. not disabled), then dispatch
through the descriptor's set_freq pointer. -/
def rig_set_freq (rig : Option RIG) (freq : Int) : Int :=
  match rig with
  | none => -RIG_EINVAL
  | some r =>
    match r.caps with
    | none => -RIG_EINVAL
    | some c =>
      let freq2 : Int :=
        if r.state.vfo_comp ≠ 0 then freq_t_cast (r.state.vfo_comp * (freq : Rat))
        else freq
      match c.set_freq with
      | none => -RIG_ENIMPL
      | some f => f r.state freq2

/-- rig_get_freq: the combined null check (!rig || !rig->caps || !freq),
then dispatch; the out-pointer is modelled as Option Unit (none = NULL). -/
def rig_get_freq (rig : Option RIG) (freq : Option Unit) : Int :=
  match rig with
  | none => -RIG_EINVAL
  | some r =>
    match r.caps with
    | none => -RIG_EINVAL
    | some c =>
      match freq with
      | none => -RIG_EINVAL
      | some _ =>
        match c.get_freq with
        | none => -RIG_ENIMPL
        | some f => (f r.state).1

/-- rig_set_mode: null checks then dispatch, no state policy applied. -/
def rig_set_mode (rig : Option RIG) (mode : Nat) : Int :=
  match rig with
  | none => -RIG_EINVAL
  | some r =>
    match r.caps with
    | none => -RIG_EINVAL
    | some c =>
      match c.set_mode with
      | none => -RIG_ENIMPL
      | some f => f r.state mode

/-- rig_get_mode: combined null check (including the out-pointer), then
dispatch. -/
def rig_get_mode (rig : Option RIG) (mode : Option Unit) : Int :=
  match rig with
  | none => -RIG_EINVAL
  | some r =>
    match r.caps with
    | none => -RIG_EINVAL
    | some c =>
      match mode with
      | none => -RIG_EINVAL
      | some _ =>
        match c.get_mode with
        | none => -RIG_ENIMPL
        | some f => (f r.state).1

/-- rig_set_vfo: null checks then dispatch. -/
def rig_set_vfo (rig : Option RIG) (vfo : Nat) : Int :=
  match rig with
  | none => -RIG_EINVAL
  | some r =>
    match r.caps with
    | none => -RIG_EINVAL
    | some c =>
      match c.set_vfo with
      | none => -RIG_ENIMPL
      | some f => f r.state vfo

/-- rig_get_vfo: combined null check (including the out-pointer), then
dispatch. -/
def rig_get_vfo (rig : Option RIG) (vfo : Option Unit) : Int :=
  match rig with
  | none => -RIG_EINVAL
  | some r =>
    match r.caps with
    | none => -RIG_EINVAL
    | some c =>
      match vfo with
      | none => -RIG_EINVAL
      | some _ =>
        match c.get_vfo with
        | none => -RIG_ENIMPL
        | some f => (f r.state).1

/-- rig_close: the C guard is `if (rig == NULL || rig->caps) return
-RIG_EINVAL`, so every handle whose descriptor pointer is non-null is
rejected unchanged (the close hook is not called, the fd is not closed),
and a handle whose descriptor is null falls through to
`rig->caps->rig_close`, a null dereference: undefined behaviour (none).
The result pairs the returned status with the handle after the call. -/
def rig_close (rig : Option RIG) : Option (Int × Option RIG) :=
  match rig with
  | none => some (-RIG_EINVAL, none)
  | some r =>
    match r.caps with
    | some _ => some (-RIG_EINVAL, some r)
    | none => none

/-- rig_cleanup: the same inverted guard as rig_close, so every handle with
a non-null descriptor is rejected and free(rig) never runs; with a null
descriptor the code dereferences it (undefined behaviour, none).  The Bool
records whether the allocation was actually released. -/
def rig_cleanup (rig : Option RIG) : Option (Int × Bool) :=
  match rig with
  | none => some (-RIG_EINVAL, false)
  | some r =>
    match r.caps with
    | some _ => some (-RIG_EINVAL, false)
    | none => none

/-- rig_has_func: the C function returns the literal -1 for a null handle or
null descriptor, and otherwise the bitwise AND of the descriptor's feature
mask with the queried flag (nonzero meaning the feature is present). -/
def rig_has_func (rig : Option RIG) (func : Nat) : Int :=
  match rig with
  | none => -1
  | some r =>
    match r.caps with
    | none => -1
    | some c => ((c.has_func &&& func : Nat) : Int)

/-- The loop body of rig_probe over the remaining candidate descriptors.
For each candidate exposing a probe routine the C code calls rig_init (and
then writes the port path through the returned pointer without a null
check: creation failure is undefined behaviour), calls rig_open discarding
its status, probes, and on probe failure calls rig_close and rig_cleanup
(whose inverted guards reject the handle, as embedded above).  The
accumulator collects every attempted handle that rig_cleanup did not
actually free, i.e. the handles abandoned by the scan. -/
def rig_probe_aux (rig_base : List rig_caps) (alloc_ok : Bool)
    (serial_open : rig_state → Int × Int) (port_path : String) :
    List rig_caps → List RIG → Option (Option RIG × List RIG)
  | [], leaked => some (none, leaked)
  | c :: rest, leaked =>
    match c.rig_probe with
    | none => rig_probe_aux rig_base alloc_ok serial_open port_path rest leaked
    | some probe =>
      match rig_init rig_base alloc_ok c.rig_model with
      | none => none
      | some r0 =>
        let r1 : RIG := { r0 with state := { r0.state with rig_path := port_path } }
        match rig_open serial_open (some r1) with
        | none => none
        | some (_, ropen) =>
          match ropen with
          | none => none
          | some r2 =>
            if probe r2.state = 0 then some (some r2, leaked)
            else
              match rig_close (some r2) with
              | none => none
              | some (_, rclosed) =>
                match rig_cleanup rclosed with
                | none => none
                | some (_, freed) =>
                  match rclosed with
                  | none =>
                    rig_probe_aux rig_base alloc_ok serial_open port_path rest leaked
                  | some r3 =>
                    rig_probe_aux rig_base alloc_ok serial_open port_path rest
                      (if freed then leaked else leaked ++ [r3])

/-- rig_probe: scan the whole registry; NULL (modelled none in the first
component) when no candidate's probe routine succeeds.  The second
component is the list of handles abandoned, not freed, during the scan. -/
def rig_probe (rig_base : List rig_caps) (alloc_ok : Bool)
    (serial_open : rig_state → Int × Int) (port_path : String) :
    Option (Option RIG × List RIG) :=
  rig_probe_aux rig_base alloc_ok serial_open port_path rig_base []

/-! Concrete fixtures used by the evaluation theorems. -/

/-- A representative capability descriptor with every optional routine
absent; individual fixtures override the fields they exercise. -/
def caps_template : rig_caps := {
  rig_model := 1
  model_name := "ft747"
  serial_rate_min := 300
  serial_rate_max := 4800
  serial_data_bits := 8
  serial_stop_bits := 2
  serial_parity := 0
  serial_handshake := 0
  timeout := 2000
  retry := 3
  ptt_type := 0
  has_func := 0
  rig_init_hook := false
  rig_open_hook := false
  rig_close_hook := false
  rig_cleanup_hook := false
  rig_probe := none
  set_freq := none
  get_freq := none
  set_mode := none
  get_mode := none
  set_vfo := none
  get_vfo := none }

/-- A one-entry registry holding the template descriptor (model 1). -/
def base1 : List rig_caps := [caps_template]

/-- A transport oracle whose open always succeeds with descriptor 3. -/
def serial_ok : rig_state → Int × Int := fun _ => (0, 3)

/-- The handle created (and never opened) for model 1. -/
def rig1_created : Option RIG := rig_init base1 true 1

/-- The outcome of the first open of that handle. -/
def rig1_open1 : Option (Int × Option RIG) := rig_open serial_ok rig1_created

/-- The handle after its first successful open (the transport fd is 3). -/
def rig1_opened : Option RIG := (rig1_open1.getD (99, none)).2

/-- A handle whose descriptor pointer is null (as a caller could hand in),
with an otherwise ordinary state block. -/
def rig_nullcaps : RIG := {
  caps := none
  state := {
    port_type := RIG_PORT_SERIAL
    rig_path := DEFAULT_SERIAL_PORT
    serial_rate := 4800
    serial_data_bits := 8
    serial_stop_bits := 2
    serial_parity := 0
    serial_handshake := 0
    timeout := 2000
    retry := 3
    ptt_type := 0
    vfo_comp := 0
    fd := 3 } }

/-- Claim C1 (code bug): rig_close rejects with -RIG_EINVAL (InvalidParameter)
every handle whose descriptor pointer is non-null — the never-opened handle
AND the successfully opened one alike — because its guard is inverted, so it
neither fails with InvalidConfiguration on never-opened handles nor succeeds
on Opened ones; the evaluation below exhibits both, plus the fact that a
handle with a null descriptor drives the function into undefined behaviour
instead of a rejection. -/
theorem C1_close_inverted_guard :
    rig1_created.isSome = true ∧
    rig_close rig1_created = some (-RIG_EINVAL, rig1_created) ∧
    rig1_opened.isSome = true ∧
    (rig1_open1.getD (99, none)).1 = RIG_OK ∧
    rig_close rig1_opened = some (-RIG_EINVAL, rig1_opened) ∧
    rig_close (some rig_nullcaps) = none ∧
    (-RIG_EINVAL : Int) ≠ -RIG_ECONF ∧
    (-RIG_EINVAL : Int) ≠ RIG_OK := by
  refine ⟨rfl, rfl, rfl, rfl, rfl, rfl, by decide, by decide⟩

/-- Claim C2 (code bug): rigerror returns the exact fixed string for each of
the eleven valid taxonomy codes, but an out-of-range code is an unchecked,
out-of-bounds table read (undefined behaviour, modelled none) instead of the
generic fallback string the claim requires. -/
theorem C2_rigerror_unchecked :
    rigerror 0 = some "Command completed sucessfully" ∧
    rigerror 1 = some "Invalid parameter" ∧
    rigerror 2 = some "Invalid configuration" ∧
    rigerror 3 = some "Memory shortage" ∧
    rigerror 4 = some "Feature not implemented" ∧
    rigerror 5 = some "Communication timed out" ∧
    rigerror 6 = some "IO error" ∧
    rigerror 7 = some "Internal Hamlib error" ∧
    rigerror 8 = some "Protocol error" ∧
    rigerror 9 = some "Command rejected by the rig" ∧
    rigerror 10 = some "Command performed, but arg truncated, result not guaranteed" ∧
    rigerror 11 = none ∧
    rigerror (-1) = none := by
  refine ⟨rfl, rfl, rfl, rfl, rfl, rfl, rfl, rfl, rfl, rfl, rfl, rfl, rfl⟩

/-- Claim C9 (code bug): rig_init yields the same NULL outcome for an
allocation failure on a registered model as for an unregistered model, so
the caller cannot see MemoryShortage as distinct from NotFound (the C code's
own FIXME says exactly this). -/
theorem C9_alloc_failure_indistinguishable :
    (rig_init base1 true 1).isSome = true ∧
    rig_init base1 false 1 = none ∧
    rig_init base1 true 2 = none ∧
    rig_init base1 false 1 = rig_init base1 true 2 := by
  refine ⟨rfl, rfl, rfl, rfl⟩

/-- Claim C4 (code bug): rig_open consults no lifecycle state, so a second
open of an already-opened handle succeeds with RIG_OK (re-running the
transport open) instead of failing with -RIG_ECONF as the claim requires. -/
theorem C4_double_open_accepted :
    (rig1_open1.getD (99, none)).1 = RIG_OK ∧
    ((rig_open serial_ok rig1_opened).getD (99, none)).1 = RIG_OK ∧
    RIG_OK ≠ -RIG_ECONF := by
  refine ⟨rfl, rfl, by decide⟩

/-- A descriptor exposing a probe routine that always fails (nonzero). -/
def caps3 : rig_caps := { caps_template with rig_probe := some (fun _ => 1) }

/-- A registry holding only the probing descriptor. -/
def base3 : List rig_caps := [caps3]

/-- The handle rig_probe abandons on the failing-probe path: created for
model 1, its path overridden to the probed port, its transport opened with
descriptor 3 — and then neither closed nor freed. -/
def leaked3 : RIG := {
  caps := some caps3
  state := {
    port_type := RIG_PORT_SERIAL
    rig_path := "/dev/ttyUSB0"
    serial_rate := 4800
    serial_data_bits := 8
    serial_stop_bits := 2
    serial_parity := 0
    serial_handshake := 0
    timeout := 2000
    retry := 3
    ptt_type := 0
    vfo_comp := 0
    fd := 3 } }

/-- Claim C3 (code bug): on a port where no probe routine succeeds,
rig_probe does return NULL (NotFound), but the handle it attempted is
abandoned with its transport descriptor still open (fd = 3, never reset to
-1) and its allocation never freed, because the inverted guards of
rig_close and rig_cleanup reject every handle that has a descriptor; the
claim's requirement that each attempted handle be closed and released
before the next candidate fails on this input. -/
theorem C3_probe_leaks_handle :
    rig_probe base3 true serial_ok "/dev/ttyUSB0" = some (none, [leaked3]) ∧
    leaked3.state.fd = 3 ∧
    leaked3.state.fd ≠ -1 ∧
    leaked3.caps = some caps3 := by
  refine ⟨rfl, rfl, by decide, rfl⟩

/-- Claim C10: every getter rejects a null output location with
-RIG_EINVAL, for every handle whatsoever — in particular for a valid handle
whose descriptor provides the model routine — and the result never depends
on (hence never delegates to) that routine. -/
theorem C10_null_out_location_rejected (rig : Option RIG) :
    rig_get_freq rig none = -RIG_EINVAL ∧
    rig_get_mode rig none = -RIG_EINVAL ∧
    rig_get_vfo rig none = -RIG_EINVAL := by
  match rig with
  | none => exact ⟨rfl, rfl, rfl⟩
  | some r =>
    match r, r.caps with
    | r, _ =>
      cases hc : r.caps with
      | none => exact ⟨by simp [rig_get_freq, hc], by simp [rig_get_mode, hc],
          by simp [rig_get_vfo, hc]⟩
      | some c => exact ⟨by simp [rig_get_freq, hc], by simp [rig_get_mode, hc],
          by simp [rig_get_vfo, hc]⟩

/-- Claim C5: for every registry, if some registered descriptor carries the
queried model identifier then the capability lookup returns a registered
descriptor whose model identifier equals the query, and if no registered
descriptor carries it the lookup returns none (NotFound). -/
theorem C5_get_caps_lookup (rig_base : List rig_caps) (m : Nat) :
    ((∃ c ∈ rig_base, c.rig_model = m) →
      ∃ c, rig_get_caps rig_base m = some c ∧ c.rig_model = m ∧ c ∈ rig_base) ∧
    ((∀ c ∈ rig_base, c.rig_model ≠ m) → rig_get_caps rig_base m = none) := by
  induction rig_base with
  | nil => exact ⟨fun ⟨c, hc, _⟩ => absurd hc (List.not_mem_nil c), fun _ => rfl⟩
  | cons c rest ih =>
    constructor
    · rintro ⟨d, hd, hm⟩
      by_cases h : c.rig_model = m
      · exact ⟨c, by simp [rig_get_caps, rig_base_lookup, h], h, List.mem_cons_self c rest⟩
      · have hd : d ∈ rest := by
          rcases List.mem_cons.mp hd with rfl | hmem
          · exact absurd hm h
          · exact hmem
        obtain ⟨e, he1, he2, he3⟩ := ih.1 ⟨d, hd, hm⟩
        refine ⟨e, ?_, he2, List.mem_cons_of_mem c he3⟩
        simpa [rig_get_caps, rig_base_lookup, h] using he1
    · intro hall
      have h : c.rig_model ≠ m := hall c (List.mem_cons_self c rest)
      have hrest := ih.2 (fun d hd => hall d (List.mem_cons_of_mem c hd))
      simpa [rig_get_caps, rig_base_lookup, h] using hrest

/-- A second descriptor, model 2, to witness the registered-lookup branch. -/
def caps5 : rig_caps := { caps_template with rig_model := 2, model_name := "ic706" }

/-- A two-entry registry for the lookup witness. -/
def base5 : List rig_caps := [caps_template, caps5]

/-- Witness for C5: in the concrete two-entry registry, model 2 is
registered and the lookup finds a descriptor with model 2, while model 7 is
unregistered and the lookup returns none. -/
theorem C5_get_caps_lookup_witness :
    (∃ c, rig_get_caps base5 2 = some c ∧ c.rig_model = 2 ∧ c ∈ base5) ∧
    rig_get_caps base5 7 = none := by
  constructor
  · exact (C5_get_caps_lookup base5 2).1 ⟨caps5, by simp [base5], rfl⟩
  · exact (C5_get_caps_lookup base5 7).2 (by
      intro c hc
      rcases List.mem_cons.mp hc with rfl | hc
      · simp [caps_template]
      · rcases List.mem_cons.mp hc with rfl | hc
        · simp [caps5, caps_template]
        · exact absurd hc (List.not_mem_nil c))

/-- Claim C6: on a valid handle whose descriptor provides set_freq, with the
calibration factor 1.02 (= 51/50) the dispatcher hands the model routine
14280000 for a requested 14000000, and with calibration disabled (factor 0,
the neutral/disabled encoding) it hands the requested value unchanged. -/
theorem C6_set_freq_calibration (r : RIG) (c : rig_caps)
    (f : rig_state → Int → Int) (hc : r.caps = some c) (hf : c.set_freq = some f) :
    (r.state.vfo_comp = 51 / 50 →
      rig_set_freq (some r) 14000000 = f r.state 14280000) ∧
    (r.state.vfo_comp = 0 →
      rig_set_freq (some r) 14000000 = f r.state 14000000) := by
  constructor
  · intro hcomp
    have h5150 : ((51 : Rat) / 50) ≠ 0 := by norm_num
    simp [rig_set_freq, hc, hf, hcomp, h5150]
    congr 1
    rw [show (51 : Rat) / 50 * 14000000 = 14280000 from by norm_num]
    rfl
  · intro hcomp
    simp [rig_set_freq, hc, hf, hcomp]

/-- A state block with the template defaults (as rig_init seeds them). -/
def state_template : rig_state := {
  port_type := RIG_PORT_SERIAL
  rig_path := DEFAULT_SERIAL_PORT
  serial_rate := 4800
  serial_data_bits := 8
  serial_stop_bits := 2
  serial_parity := 0
  serial_handshake := 0
  timeout := 2000
  retry := 3
  ptt_type := 0
  vfo_comp := 0
  fd := 0 }

/-- A set_freq routine that reports the frequency it was handed. -/
def setf6 : rig_state → Int → Int := fun _ q => q

/-- A descriptor providing that set_freq routine. -/
def caps6 : rig_caps := { caps_template with set_freq := some setf6 }

/-- A handle with calibration factor 1.02 (= 51/50). -/
def rig6 : RIG := { caps := some caps6, state := { state_template with vfo_comp := 51 / 50 } }

/-- A handle with calibration disabled (factor 0). -/
def rig6n : RIG := { caps := some caps6, state := state_template }

/-- Witness for C6: with the reporting set_freq routine, the calibrated
handle delegates 14280000 for a requested 14000000 and the uncalibrated one
delegates 14000000 unchanged. -/
theorem C6_set_freq_calibration_witness :
    rig6.state.vfo_comp = 51 / 50 ∧
    rig_set_freq (some rig6) 14000000 = 14280000 ∧
    rig6n.state.vfo_comp = 0 ∧
    rig_set_freq (some rig6n) 14000000 = 14000000 := by
  refine ⟨rfl, ?_, rfl, ?_⟩
  · exact ((C6_set_freq_calibration rig6 caps6 setf6 rfl rfl).1 rfl).trans rfl
  · exact ((C6_set_freq_calibration rig6n caps6 setf6 rfl rfl).2 rfl).trans rfl

/-- Claim C8: on a valid handle the feature query is nonzero exactly when
the queried single-bit flag is set in the descriptor's has_func mask, while
a null handle or a null descriptor yields -1, which is the InvalidParameter
code negated and is distinct from the feature-absent result 0. -/
theorem C8_has_func_bitmask (r : RIG) (c : rig_caps) (k : Nat)
    (hc : r.caps = some c) :
    (rig_has_func (some r) (2 ^ k) ≠ 0 ↔ c.has_func.testBit k) ∧
    rig_has_func none (2 ^ k) = -RIG_EINVAL ∧
    rig_has_func (some { r with caps := none }) (2 ^ k) = -RIG_EINVAL ∧
    (-RIG_EINVAL : Int) ≠ 0 := by
  refine ⟨?_, rfl, rfl, by decide⟩
  simp only [rig_has_func, hc]
  rw [Nat.and_two_pow]
  cases h : c.has_func.testBit k <;> simp [h]

/-- A descriptor whose feature mask has exactly bit 3 set. -/
def caps8 : rig_caps := { caps_template with has_func := 8 }

/-- A valid handle over that descriptor. -/
def rig8 : RIG := { caps := some caps8, state := state_template }

/-- Witness for C8: bit 3 is set in the mask 8, and the query for flag 2^3
is indeed nonzero on the concrete handle. -/
theorem C8_has_func_bitmask_witness :
    rig8.caps = some caps8 ∧ rig_has_func (some rig8) (2 ^ 3) ≠ 0 :=
  ⟨rfl, ((C8_has_func_bitmask rig8 caps8 3 rfl).1).mpr (by decide)⟩

/-- Claim C7 as amended: every dispatcher accessor fails with -RIG_EINVAL
(InvalidParameter) when the handle is null or carries no descriptor, and
the three getters additionally fail with -RIG_EINVAL when the output
location is null; in the remaining cases an accessor fails with
-RIG_ENIMPL (NotImplemented) when the descriptor lacks the model routine,
and returns the routine's result verbatim when it is present (for
setFrequency, applied to the possibly calibration-adjusted argument). -/
theorem C7_dispatcher_contract (r : RIG) (c : rig_caps) (hc : r.caps = some c) :
    (∀ q, rig_set_freq none q = -RIG_EINVAL) ∧
    (∀ p, rig_get_freq none p = -RIG_EINVAL) ∧
    (∀ m, rig_set_mode none m = -RIG_EINVAL) ∧
    (∀ p, rig_get_mode none p = -RIG_EINVAL) ∧
    (∀ v, rig_set_vfo none v = -RIG_EINVAL) ∧
    (∀ p, rig_get_vfo none p = -RIG_EINVAL) ∧
    (∀ q, rig_set_freq (some { r with caps := none }) q = -RIG_EINVAL) ∧
    (∀ p, rig_get_freq (some { r with caps := none }) p = -RIG_EINVAL) ∧
    (∀ m, rig_set_mode (some { r with caps := none }) m = -RIG_EINVAL) ∧
    (∀ p, rig_get_mode (some { r with caps := none }) p = -RIG_EINVAL) ∧
    (∀ v, rig_set_vfo (some { r with caps := none }) v = -RIG_EINVAL) ∧
    (∀ p, rig_get_vfo (some { r with caps := none }) p = -RIG_EINVAL) ∧
    rig_get_freq (some r) none = -RIG_EINVAL ∧
    rig_get_mode (some r) none = -RIG_EINVAL ∧
    rig_get_vfo (some r) none = -RIG_EINVAL ∧
    (c.set_freq = none → ∀ q, rig_set_freq (some r) q = -RIG_ENIMPL) ∧
    (c.get_freq = none → rig_get_freq (some r) (some ()) = -RIG_ENIMPL) ∧
    (c.set_mode = none → ∀ m, rig_set_mode (some r) m = -RIG_ENIMPL) ∧
    (c.get_mode = none → rig_get_mode (some r) (some ()) = -RIG_ENIMPL) ∧
    (c.set_vfo = none → ∀ v, rig_set_vfo (some r) v = -RIG_ENIMPL) ∧
    (c.get_vfo = none → rig_get_vfo (some r) (some ()) = -RIG_ENIMPL) ∧
    (∀ q f, c.set_freq = some f → ∃ x, rig_set_freq (some r) q = f r.state x) ∧
    (∀ f, c.get_freq = some f → rig_get_freq (some r) (some ()) = (f r.state).1) ∧
    (∀ m f, c.set_mode = some f → rig_set_mode (some r) m = f r.state m) ∧
    (∀ f, c.get_mode = some f → rig_get_mode (some r) (some ()) = (f r.state).1) ∧
    (∀ v f, c.set_vfo = some f → rig_set_vfo (some r) v = f r.state v) ∧
    (∀ f, c.get_vfo = some f → rig_get_vfo (some r) (some ()) = (f r.state).1) := by
  refine ⟨fun _ => rfl, fun _ => rfl, fun _ => rfl, fun _ => rfl, fun _ => rfl,
    fun _ => rfl, fun _ => rfl, fun _ => rfl, fun _ => rfl, fun _ => rfl,
    fun _ => rfl, fun _ => rfl,
    by simp [rig_get_freq, hc], by simp [rig_get_mode, hc], by simp [rig_get_vfo, hc],
    fun h q => by simp [rig_set_freq, hc, h],
    fun h => by simp [rig_get_freq, hc, h],
    fun h m => by simp [rig_set_mode, hc, h],
    fun h => by simp [rig_get_mode, hc, h],
    fun h v => by simp [rig_set_vfo, hc, h],
    fun h => by simp [rig_get_vfo, hc, h],
    fun q f hf => ⟨if r.state.vfo_comp ≠ 0 then freq_t_cast (r.state.vfo_comp * (q : Rat)) else q,
      by simp [rig_set_freq, hc, hf]⟩,
    fun f hf => by simp [rig_get_freq, hc, hf],
    fun m f hf => by simp [rig_set_mode, hc, hf],
    fun f hf => by simp [rig_get_mode, hc, hf],
    fun v f hf => by simp [rig_set_vfo, hc, hf],
    fun f hf => by simp [rig_get_vfo, hc, hf]⟩

/-- A get_freq routine returning status 0 (RIG_OK) and frequency 7012345. -/
def getf7 : rig_state → Int × Int := fun _ => (0, 7012345)

/-- A descriptor providing that get_freq routine. -/
def caps7 : rig_caps := { caps_template with get_freq := some getf7 }

/-- A valid handle over that descriptor. -/
def rig7 : RIG := { caps := some caps7, state := state_template }

/-- Counterexample to C7 as stated: the handle is non-null and carries a
descriptor whose get_freq routine is present, yet the call with a null
output location does not return that routine's result verbatim (the claim,
as stated, leaves no other option once handle and descriptor are valid):
the code returns -RIG_EINVAL instead of the routine's status 0. -/
theorem C7_dispatcher_counterexample :
    rig7.caps = some caps7 ∧ caps7.get_freq = some getf7 ∧
    (getf7 rig7.state).1 = RIG_OK ∧
    rig_get_freq (some rig7) none = -RIG_EINVAL ∧
    rig_get_freq (some rig7) none ≠ (getf7 rig7.state).1 := by
  refine ⟨rfl, rfl, rfl, rfl, by decide⟩

/-- Witness for the amended C7 contract, applied to the concrete handle:
the valid-handle hypothesis is discharged by rfl and two representative
conjuncts are read off (null-handle rejection and verbatim delegation of
the present get_freq routine). -/
theorem C7_dispatcher_contract_witness :
    rig_get_freq none (some ()) = -RIG_EINVAL ∧
    rig_get_freq (some rig7) (some ()) = (getf7 rig7.state).1 := by
  have h := C7_dispatcher_contract rig7 caps7 rfl
  exact ⟨h.2.1 (some ()), h.2.2.2.2.2.2.2.2.2.2.2.2.2.2.2.2.2.2.2.2.2.2.1 getf7 rfl⟩
